import Mathlib

set_option maxRecDepth 8000

/-
Verification development for the rf_pose regression-tree trainer
(src/src/CRTree.cpp).  The C++ code is shallowly embedded below:

* machine integers become `Int`/`Nat` (all arithmetic in the source stays
  far from any overflow boundary: pixel intensities are 0..255, differences
  lie in [-255, 255], node indices and sizes are tiny naturals);
* the OpenCV random source `cv::theRNG().uniform(lo, hi)` is modelled as an
  externally supplied stream of integers consumed in draw order, each draw
  reduced into `[lo, hi)`; the source seeds this generator from the clock,
  so the stream is a parameter of every embedded routine;
* `std::upper_bound` is modelled by the standard half-interval binary-search
  loop that mainstream C++ standard libraries implement (libstdc++ and
  libc++ both use exactly this first/len loop shape), because the comparator
  the source passes does not satisfy the partitioned-range precondition of
  the function's specification, so only the de-facto algorithm fixes the
  behaviour;
* the score `measureInformationGain` is floating point.  Its double values
  are modelled by the domain `DVal`: NaN, the two infinities, exactly known
  finite values, and `finUnk`, a finite value not tracked further.  The
  source calls `cv::calcCovarMatrix(P, cov, mean, CV_COVAR_NORMAL |
  CV_COVAR_SCALE)` WITHOUT `CV_COVAR_ROWS`, so OpenCV takes the two COLUMNS
  of the n×2 sample matrix [pitch | yaw] as the two samples: the mean is
  their average column, and the covariance is the n×n matrix
  (1/2)·Σ_k (c_k − m)(c_k − m)ᵀ, of rank at most 1.  That matrix and
  `cv::determinant` are embedded exactly over ℚ (float arithmetic idealized
  as exact rational arithmetic; at every input consulted by the concrete
  runs below the float computation is exact: entries 0, ±1, 1/4, dets 0 and
  1, log(1) = +0.0 and log(0) = −inf are all exact in IEEE doubles).  The
  double operations of the score expression (`log`, `*`, `-`, `>`) are
  embedded on `DVal` with IEEE-754 semantics; the branches whose exact
  value `DVal` does not track (`finUnk` against a finite value, finite
  minus finite) are never consulted by any run reasoned about in this file;
* the fatal / out-of-bounds effects (reading `data[0]` of an empty vector,
  writing past the allocated node table, unbounded recursion) are made
  observable: reads that the C++ code performs without a bounds check on a
  possibly-empty container return `none`, node-table writes are recorded in
  an event log carrying the node index, and the recursion of `grow` carries
  fuel (the call stack) plus a ghost log of every `grow` invocation.
-/

namespace CRTree

/- Batteries marks the rational arithmetic operations `@[irreducible]`,
which blocks kernel evaluation of the exact covariance computation below;
restore the default reducibility for this file. -/
attribute [local semireducible] Rat.add Rat.mul Rat.sub Rat.inv

/-- An image patch: a single-channel pixel grid (intensity accessor
`pix row col`, the `at<uchar>(r, c)` of the source) of the shared
`width` × `height`, plus the two regression targets `pitch` and `yaw`. -/
structure ImagePatch where
  width : Nat
  height : Nat
  pix : Nat → Nat → Int
  pitch : ℚ
  yaw : ℚ
deriving Inhabited

/-- `typedef std::vector<ImagePatch> TrainingSet` of the source. -/
abbrev TrainingSet := List ImagePatch

/-- `IntIndex`: a patch's signed intensity difference paired with its index
into the original (unsorted) working set.  Declared in the repository's
header; its ordering (used by `std::sort`) is ascending by `difference`
per the spec's Test Evaluator contract. -/
structure IntIndex where
  difference : Int
  index : Nat
deriving DecidableEq, Inhabited

/-- The `int test[6]` of the source: two pixel locations, one reserved slot
(`test[4]`, never initialised by the source; modelled as 0 — no claim
depends on it) and the threshold `test[5]`. -/
structure TestParams where
  x1 : Int
  y1 : Int
  x2 : Int
  y2 : Int
  r4 : Int
  tr : Int
deriving DecidableEq, Inhabited

/-- The random source: the stream of raw draws consumed in order. -/
abbrev RngStream := Nat → Int

/-- One call of `cv::theRNG().uniform(lo, hi)`: returns a value in
`[lo, hi)` (the value `lo` itself when the range is empty, as OpenCV does)
and advances the stream. -/
def rngUniform (s : RngStream) (pos : Nat) (lo hi : Int) : Int × Nat :=
  (if lo < hi then lo + (s pos).emod (hi - lo) else lo, pos + 1)

/-- `CRTree::generateTest` (CRTree.cpp:139-148): draws x1, y1, x2, y2
uniformly from the patch bounds; threshold and reserved slot not set. -/
def generateTest (s : RngStream) (pos : Nat) (width height : Nat) :
    TestParams × Nat :=
  let r1 := rngUniform s pos 0 (width : Int)
  let r2 := rngUniform s r1.2 0 (height : Int)
  let r3 := rngUniform s r2.2 0 (width : Int)
  let r4 := rngUniform s r3.2 0 (height : Int)
  (⟨r1.1, r2.1, r3.1, r4.1, 0, 0⟩, r4.2)

/-- Insertion step of sorting ascending by `difference` (stable). -/
def insertSorted (x : IntIndex) : List IntIndex → List IntIndex
  | [] => [x]
  | y :: ys =>
    if x.difference < y.difference then x :: y :: ys else y :: insertSorted x ys

/-- `std::sort` of the source, ascending by `difference` (ties arbitrary
per the spec; this embedding is stable). -/
def sortByDifference (l : List IntIndex) : List IntIndex :=
  l.foldl (fun acc x => insertSorted x acc) []

/-- `CRTree::evaluateTest` (CRTree.cpp:150-161): for every patch in order,
push `intensity(y1, x1) − intensity(y2, x2)` paired with the patch's
position onto `valSet` (note: the source `push_back`s onto the vector it is
given WITHOUT clearing it), then sort the whole vector. -/
def evaluateTest (data : TrainingSet) (t : TestParams)
    (valSet : List IntIndex) : List IntIndex :=
  sortByDifference
    (valSet ++ data.enum.map (fun pr =>
      (⟨pr.2.pix t.y1.toNat t.x1.toNat - pr.2.pix t.y2.toNat t.x2.toNat,
        pr.1⟩ : IntIndex)))

/-- The half-interval loop of `std::upper_bound` as implemented by the
mainstream C++ standard libraries, specialised to the comparator the source
passes at CRTree.cpp:166-167, namely `comp(value, elem) = elem.difference <
value` (the argument order of a correct `upper_bound` comparator is the
reverse; the source's comparator compares in the wrong direction, which is
why the loop is embedded literally).  The first argument is fuel; the loop
shrinks `len` strictly, so fuel `len` suffices. -/
def ubLoop (vs : List IntIndex) (tr : Int) : Nat → Nat → Nat → Nat
  | 0, first, _ => first
  | fuel + 1, first, len =>
    if len = 0 then first
    else
      let half := len / 2
      let mid := first + half
      if (vs.getD mid default).difference < tr then
        ubLoop vs tr fuel first half
      else
        ubLoop vs tr fuel (mid + 1) (len - half - 1)

/-- The index returned by the source's `std::upper_bound` call. -/
def upperBound (vs : List IntIndex) (tr : Int) : Nat :=
  ubLoop vs tr vs.length 0 vs.length

/-- `CRTree::split` (CRTree.cpp:163-177): cut the sorted sequence at the
`upper_bound` position and push the patches (recovered through the backward
index) onto `partA` / `partB` — again WITHOUT clearing the output vectors,
which therefore accumulate across calls. -/
def split (data : TrainingSet) (tr : Int) (valSet : List IntIndex)
    (partA partB : TrainingSet) : TrainingSet × TrainingSet :=
  let cutoff := upperBound valSet tr
  (partA ++ (valSet.take cutoff).map (fun v => data.getD v.index default),
   partB ++ (valSet.drop cutoff).map (fun v => data.getD v.index default))

/-- The initial `bestSplit = -DBL_MAX` (CRTree.cpp:88): the exact value of
`-DBL_MAX`, namely `-(2^1024 - 2^971)`, written as a literal. -/
def negDblMax : ℚ := -179769313486231570814527423731704356798070567525844996598917476803157260780028538760589558632766878171540458953514382464234321326889464182768467546703537516986049910576551282076245490090389328944075868508455133942304583236903222948165808559332123348274797826204144723168738177180919299881250404026184124858368

/-- Model of the IEEE-754 doubles consulted by the score computation:
`nan`, the two infinities, exactly known finite values `fin q`, and
`finUnk`, a finite double whose exact value the model does not track
(it arises only as `log` of a positive determinant other than 1, or as a
product/difference of such values; every finite double is comparable, but
no run reasoned about in this file ever compares a `finUnk` against a
finite value — such scores are swallowed by a −inf or NaN term first). -/
inductive DVal where
  | nan
  | ninf
  | pinf
  | fin (q : ℚ)
  | finUnk
deriving DecidableEq

/-- The C `log` applied to a determinant value (idealized exact rational):
log of a negative argument is NaN, `log(0) = −inf`, `log(1) = +0.0`
exactly, and `log` of any other positive argument is some finite double
(|ln d| < 745 for every positive finite double, so no overflow). -/
def logD (d : ℚ) : DVal :=
  if d < 0 then .nan
  else if d = 0 then .ninf
  else if d = 1 then .fin 0
  else .finUnk

/-- IEEE product of one of the weights `Wl`/`Wr` — an exactly represented
nonnegative integer after the `size_t` division — with a double:
`0 · ±inf = NaN`, `w · ±inf = ±inf` for positive `w`, `0 · finite = 0`
exactly; a nonzero-weight product with a finite value is finite (tracked
only when it is exactly 0; the overflow-to-infinity corner of huge
products is never consulted by any run in this file). -/
def wMul (w : ℚ) (x : DVal) : DVal :=
  match x with
  | .nan => .nan
  | .ninf => if w = 0 then .nan else if 0 < w then .ninf else .pinf
  | .pinf => if w = 0 then .nan else if 0 < w then .pinf else .ninf
  | .fin q => if w = 0 ∨ q = 0 then .fin 0 else .finUnk
  | .finUnk => if w = 0 then .fin 0 else .finUnk

/-- IEEE subtraction on `DVal`: NaN propagates, `−inf − (−inf)` and
`+inf − (+inf)` are NaN, an infinity minus anything else keeps its sign,
finite minus `∓inf` is `±inf`; the difference of two finite values is
finite-or-overflow and is not tracked (never consulted by any run in this
file). -/
def dSub (a b : DVal) : DVal :=
  match a, b with
  | .nan, _ => .nan
  | _, .nan => .nan
  | .ninf, .ninf => .nan
  | .ninf, _ => .ninf
  | .pinf, .pinf => .nan
  | .pinf, _ => .pinf
  | _, .ninf => .pinf
  | _, .pinf => .ninf
  | _, _ => .finUnk

/-- IEEE `>` on `DVal`: any comparison involving NaN is false, `+inf` is
greater than everything else, `−inf` is greater than nothing, two exactly
known finite values compare exactly, a finite value exceeds `−inf`.  The
remaining cases (an untracked finite against a finite) are modelled as
false and are never consulted by any run in this file. -/
def dGt (a b : DVal) : Bool :=
  match a, b with
  | .nan, _ => false
  | _, .nan => false
  | .pinf, .pinf => false
  | .pinf, _ => true
  | .ninf, _ => false
  | _, .pinf => false
  | .fin x, .fin y => decide (y < x)
  | .fin _, .ninf => true
  | .finUnk, .ninf => true
  | _, _ => false

/-- `double Wl = partA.size()/parent.size()` (CRTree.cpp:183): the two
operands are `size_t`, so this is INTEGER division, truncated, and only
then converted to `double` (exactly).  Embedded exactly. -/
def Wl (partA parent : TrainingSet) : ℚ :=
  ((partA.length / parent.length : Nat) : ℚ)

/-- `double Wr = partB.size()/parent.size()` (CRTree.cpp:184), likewise
integer division. -/
def Wr (partB parent : TrainingSet) : ℚ :=
  ((partB.length / parent.length : Nat) : ℚ)

/-- The matrix obtained from `M` by deleting row 0 and column `j`. -/
def detMinor (M : Nat → Nat → ℚ) (j : Nat) : Nat → Nat → ℚ :=
  fun a b => M (a + 1) (if b < j then b else b + 1)

/-- `cv::determinant` of an n×n matrix, idealized to exact rational
arithmetic: the mathematical determinant, written as Laplace expansion
along the first row (OpenCV uses the direct cofactor formulas for n ≤ 3
and LU beyond; over exact arithmetic both equal this value). -/
def detQ : Nat → (Nat → Nat → ℚ) → ℚ
  | 0, _ => 1
  | n + 1, M =>
    (List.range (n + 1)).foldr
      (fun j acc =>
        (if j % 2 = 0 then (1 : ℚ) else -1) * M 0 j * detQ n (detMinor M j)
          + acc) 0

/-- Entry `i` of the pitch column of the n×2 sample matrix the source
builds (CRTree.cpp:188-192). -/
def pitchCol (ts : TrainingSet) (i : Nat) : ℚ := (ts.getD i default).pitch

/-- Entry `i` of the yaw column of the n×2 sample matrix. -/
def yawCol (ts : TrainingSet) (i : Nat) : ℚ := (ts.getD i default).yaw

/-- Entry (i, j) of the covariance matrix `cv::calcCovarMatrix(P, cov,
mean, CV_COVAR_NORMAL | CV_COVAR_SCALE)` produces for the n×2 matrix
`P = [pitch | yaw]`: the flags OMIT `CV_COVAR_ROWS`, so the two COLUMNS of
`P` are taken as the samples; the mean is their average column and the
result is the n×n matrix `(1/2)·Σ_{c ∈ {pitch, yaw}} (c − m)(c − m)ᵀ`
(`CV_COVAR_SCALE` divides by the number of samples, 2).  Float arithmetic
idealized as exact rational arithmetic. -/
def covMat (ts : TrainingSet) (i j : Nat) : ℚ :=
  ((pitchCol ts i - (pitchCol ts i + yawCol ts i) / 2)
      * (pitchCol ts j - (pitchCol ts j + yawCol ts j) / 2)
    + (yawCol ts i - (pitchCol ts i + yawCol ts i) / 2)
      * (yawCol ts j - (pitchCol ts j + yawCol ts j) / 2)) / 2

/-- `cv::determinant(cv::calcCovarMatrix(...))` of the working set's
sample matrix, as the source computes it (CRTree.cpp:188-215). -/
def covDet (ts : TrainingSet) : ℚ := detQ ts.length (covMat ts)

/-- `CRTree::measureInformationGain` (CRTree.cpp:179-221): the double
expression `log(det(covP)) − Wr·log(det(covPr)) − Wl·log(det(covPl))`
(left-associated, exactly as written at line 218), over the `DVal` model
of doubles. -/
def measureInformationGain (parent partA partB : TrainingSet) : DVal :=
  dSub (dSub (logD (covDet parent))
             (wMul (Wr partB parent) (logD (covDet partB))))
       (wMul (Wl partA parent) (logD (covDet partA)))

/-- The mutable locals of `CRTree::optimizeTest` (CRTree.cpp:75-137):
`tmpA`, `tmpB` and `valSet` are declared OUTSIDE the iteration loops and
never cleared; `bestSplit` (a double, here a `DVal`), `ret` and the output
parameters `partA`, `partB`, `test`; plus the random-stream position. -/
structure OptState where
  tmpA : TrainingSet
  tmpB : TrainingSet
  valSet : List IntIndex
  bestSplit : DVal
  ret : Bool
  partA : TrainingSet
  partB : TrainingSet
  test : TestParams
  pos : Nat

/-- The inner threshold loop of `optimizeTest` (CRTree.cpp:106-130): draw a
threshold from `[vmin, vmax)`, split (appending to the accumulated `tmpA`,
`tmpB`), and if both accumulated sets are non-empty score the candidate and
keep it on a strict improvement (`score > bestSplit`, IEEE `>`). -/
def thresholdLoop (s : RngStream) (data : TrainingSet) (tmpTest : TestParams)
    (vmin vmax : Int) : Nat → OptState → OptState
  | 0, st => st
  | j + 1, st =>
    let tp := rngUniform s st.pos vmin vmax
    let ab := split data tp.1 st.valSet st.tmpA st.tmpB
    let st1 := { st with tmpA := ab.1, tmpB := ab.2, pos := tp.2 }
    let st2 :=
      if 0 < ab.1.length ∧ 0 < ab.2.length then
        let score := measureInformationGain data ab.1 ab.2
        if dGt score st1.bestSplit then
          { st1 with ret := true, bestSplit := score,
                     test := { tmpTest with tr := tp.1 },
                     partA := ab.1, partB := ab.2 }
        else st1
      else st1
    thresholdLoop s data tmpTest vmin vmax j st2

/-- One iteration of the outer candidate-test loop of `optimizeTest`
(CRTree.cpp:93-131): generate a test, evaluate it (appending to the
accumulated `valSet`), read `vmin`/`vmax` from the front/back of the
sorted vector, and unless the test is degenerate run the threshold
loop. -/
def outerIter (s : RngStream) (nThresholdIt : Nat) (data : TrainingSet)
    (width height : Nat) (st : OptState) : OptState :=
  let g := generateTest s st.pos width height
  let valSet := evaluateTest data g.1 st.valSet
  let st1 := { st with valSet := valSet, pos := g.2 }
  if 0 < (valSet.getLastD default).difference
        - (valSet.headD default).difference then
    thresholdLoop s data g.1 (valSet.headD default).difference
      (valSet.getLastD default).difference nThresholdIt st1
  else st1

/-- The outer candidate-test loop of `optimizeTest` (CRTree.cpp:92-132):
`iter` runs of `outerIter`. -/
def outerLoop (s : RngStream) (nThresholdIt : Nat) (data : TrainingSet)
    (width height : Nat) : Nat → OptState → OptState
  | 0, st => st
  | i + 1, st =>
    outerLoop s nThresholdIt data width height i
      (outerIter s nThresholdIt data width height st)

/-- `CRTree::optimizeTest` (CRTree.cpp:75-137).  The source reads
`data[0]` unconditionally (line 85) to obtain the shared patch dimensions;
on an empty working set that read is out of bounds, modelled as `none`.
Returns the `ret` flag, the output partitions, the best test and the
advanced stream position. -/
def optimizeTest (s : RngStream) (nThresholdIt : Nat) (data : TrainingSet)
    (iter : Nat) (pos : Nat) :
    Option (Bool × TrainingSet × TrainingSet × TestParams × Nat) :=
  match data with
  | [] => none
  | p :: _ =>
    let st0 : OptState :=
      ⟨[], [], [], .fin negDblMax, false, [], [], default, pos⟩
    let st := outerLoop s nThresholdIt data p.width p.height iter st0
    some (st.ret, st.partA, st.partB, st.test, st.pos)

/-- Modelled from the spec: `LeafNode` is declared in the repository's
header `CRTree.h`, which is not under src/; per the spec (§3, §4.7) a leaf
record holds at minimum the count of training patches that reached it plus
mean and dispersion of pitch and yaw.  The source allocates an array of
these (CRTree.cpp:19) and never writes into it (the `TODO` at
CRTree.cpp:229-230). -/
structure LeafNode where
  count : Nat
  meanPitch : ℚ
  meanYaw : ℚ
  dispPitch : ℚ
  dispYaw : ℚ
deriving DecidableEq, Inhabited

/-- One write into the node table `treetable`: either the internal-node
store of CRTree.cpp:50-53 (`-1` sentinel plus the six test ints at slot
`node*7`) or the leaf store of CRTree.cpp:226 (`treetable[node*7] =
numLeaves`).  The leaf event also carries, as a ghost observation, the size
of the working set handed to `makeLeaf`. -/
inductive WriteEv where
  | internal (node : Nat) (tp : TestParams)
  | leafW (node : Nat) (leafIdx : Nat) (count : Nat)
deriving DecidableEq

/-- Node index targeted by a node-table write. -/
def WriteEv.node : WriteEv → Nat
  | .internal n _ => n
  | .leafW n _ _ => n

/-- The mutable state of one `CRTree` object during induction: the leaf
counter, the (never-written) leaf array, the log of node-table writes, a
ghost log of every invocation of `grow` as `(node, depth)`, and the
random-stream position. -/
structure TreeState where
  numLeaves : Nat
  leafArr : List LeafNode
  log : List WriteEv
  calls : List (Nat × Nat)
  rpos : Nat
deriving DecidableEq

/-- The freshly constructed tree (CRTree.cpp:9-20): `numLeaves = 0`, leaf
array of `2^maxDepth` default records, zeroed tables, no writes yet. -/
def initialTreeState (maxDepth : Nat) : TreeState :=
  ⟨0, List.replicate (2 ^ maxDepth) default, [], [], 0⟩

/-- `CRTree::makeLeaf` (CRTree.cpp:224-234): write the current `numLeaves`
into the node table at `node*7` and increment the counter.  Nothing is
stored into the leaf array — the statistics store is an unimplemented
`TODO` in the source. -/
def makeLeaf (st : TreeState) (data : TrainingSet) (node : Nat) : TreeState :=
  { st with log := st.log ++ [WriteEv.leafW node st.numLeaves data.length],
            numLeaves := st.numLeaves + 1 }

/-- `CRTree::grow` (CRTree.cpp:36-73), fuel-indexed (the fuel models the
call stack; the source recursion has no structural bound because `depth`
only ever grows).  Note the source's first check is `if(depth < maxDepth)
{ makeLeaf(data, node); return; }` — the depth test makes a LEAF below
`maxDepth` and searches for a split otherwise.  On a successful split the
node stores the sentinel and test (logged as `WriteEv.internal`), then each
child either recurses (when its partition is larger than `minSamples`) or
becomes a leaf.  Every invocation is ghost-logged into `calls`. -/
def grow (s : RngStream) (nThresholdIt minSamples maxDepth : Nat) :
    Nat → TrainingSet → Nat → Nat → Nat → TreeState → Option TreeState
  | 0, _, _, _, _, _ => none
  | fuel + 1, data, node, depth, samples, st =>
    let st := { st with calls := st.calls ++ [(node, depth)] }
    if depth < maxDepth then
      some (makeLeaf st data node)
    else
      match optimizeTest s nThresholdIt data samples st.rpos with
      | none => none
      | some (ret, partA, partB, test, pos) =>
        let st := { st with rpos := pos }
        if ret then
          let st := { st with log := st.log ++ [WriteEv.internal node test] }
          let left :=
            if minSamples < partA.length then
              grow s nThresholdIt minSamples maxDepth fuel
                partA (2 * node + 1) (depth + 1) samples st
            else some (makeLeaf st partA (2 * node + 1))
          match left with
          | none => none
          | some st =>
            if minSamples < partB.length then
              grow s nThresholdIt minSamples maxDepth fuel
                partB (2 * node + 2) (depth + 1) samples st
            else some (makeLeaf st partB (2 * node + 2))
        else
          some (makeLeaf st data node)

/-- `CRTree::growTree` (CRTree.cpp:28-34): seed the random source (the
stream parameter stands for the seeded generator) and start the recursion
at node 0, depth 0, with `samples = patches.size()`. -/
def growTree (s : RngStream) (nThresholdIt minSamples maxDepth fuel : Nat)
    (patches : TrainingSet) : Option TreeState :=
  grow s nThresholdIt minSamples maxDepth fuel
    patches 0 0 patches.length (initialTreeState maxDepth)

/-- From the spec's partition-boundary law (§4.4 step 5, §8): the entries
of the sorted sequence whose difference is at most the threshold — the
left side the spec demands.  Spec-side comparison definition only. -/
def specPartA (valSet : List IntIndex) (tr : Int) : List IntIndex :=
  valSet.filter (fun v => decide (v.difference ≤ tr))

/-- From the spec's partition-boundary law: the entries whose difference
exceeds the threshold — the right side the spec demands. -/
def specPartB (valSet : List IntIndex) (tr : Int) : List IntIndex :=
  valSet.filter (fun v => decide (tr < v.difference))

/-! Concrete scenario material: 2×2 patches whose pixel grids realise
chosen intensity differences under the tests the embedded RNG generates. -/

/-- A constant-zero 2×2 patch. -/
def p0 : ImagePatch := ⟨2, 2, fun _ _ => 0, 0, 0⟩

/-- A 2×2 patch whose pixel (0,0) has intensity 10, the rest 0: under the
test comparing pixel (0,0) with pixel (1,1) its difference is 10. -/
def p2 : ImagePatch := ⟨2, 2, fun r c => if r = 0 ∧ c = 0 then 10 else 0, 0, 1⟩

/-- Two-patch training set with differences 0 and 10 under the generated
test (0,0) vs (1,1). -/
def data2 : TrainingSet := [p0, p2]

/-- Raw draw stream: coordinates (0,0), (1,1), then threshold 5. -/
def stream5 : RngStream := fun i => [0, 0, 1, 1, 5].getD i 0

/-- The candidate test generated from the streams above: compare pixel
(0,0) against pixel (1,1); threshold still unset. -/
def tc0 : TestParams := ⟨0, 0, 1, 1, 0, 0⟩

/-- A freshly constructed tree with `maxDepth = 1`: two default leaf
records, empty logs. -/
def st9 : TreeState := initialTreeState 1

/-! Lemmas: the covariance of any working set of two or more patches is
rank-deficient (the source omits `CV_COVAR_ROWS`), so its determinant is
exactly 0, every score the threshold loop consults on such a working set
is `−inf` or NaN, the IEEE comparison `score > bestSplit` is false, and
split search leaves its outputs untouched. -/

/-- Claim C4: the claim says `split` routes exactly the patches with
difference ≤ tr into partA and exactly those with difference > tr into
partB.  On the sorted sequence `[(0,0), (10,1)]` with threshold 5 the spec
demands partA = the difference-0 patch and partB = the difference-10
patch, but the source's `upper_bound` comparator compares in the wrong
direction (CRTree.cpp:166-167), so the cut lands at the end: partA gets
BOTH patches and partB is empty. -/
theorem claimC4_counterexample :
    split data2 5 [⟨0, 0⟩, ⟨10, 1⟩] [] [] = ([p0, p2], []) ∧
    specPartA [⟨0, 0⟩, ⟨10, 1⟩] 5 = [⟨0, 0⟩] ∧
    specPartB [⟨0, 0⟩, ⟨10, 1⟩] 5 = [⟨10, 1⟩] := by
  exact ⟨rfl, by decide, by decide⟩

/-- Claim C7: the claim says the child weights are the exact rational
ratios |partA|/|parent| and |partB|/|parent| (a half-sized child weighs
1/2, not 0).  The source divides the two `size_t` sizes with INTEGER
division before converting to double (CRTree.cpp:183-184), so a half-sized
child gets weight 0, not 1/2. -/
theorem claimC7_counterexample :
    Wl [p0] data2 = 0 ∧ Wr [p2] data2 = 0 ∧ ¬ ((1 : ℚ) / 2 = 0) := by
  exact ⟨by decide, by decide, by norm_num⟩

/-- Claim C8: the claim says split search fails only when every candidate
was degenerate or every threshold produced an empty partition, and that a
non-degenerate test with a threshold giving two non-empty partitions
forces success.  On `data2` (differences 0 and 10, non-degenerate: the
minimum and maximum of the sorted sequence differ) with threshold 5 the
spec partition has one patch on each side, yet the source's broken
`upper_bound` puts both patches into the left side, the empty-side check
rejects the candidate, and split search returns FAILURE. -/
theorem claimC8_counterexample :
    optimizeTest stream5 1 data2 1 0 =
      some (false, [], [], ⟨0, 0, 0, 0, 0, 0⟩, 5) ∧
    specPartA (evaluateTest data2 tc0 []) 5 = [⟨0, 0⟩] ∧
    specPartB (evaluateTest data2 tc0 []) 5 = [⟨10, 1⟩] ∧
    (evaluateTest data2 tc0 []).headD default ≠
      (evaluateTest data2 tc0 []).getLastD default := by
  exact ⟨rfl, by decide, by decide, by decide⟩

/-- Claim C9: the claim says `makeLeaf` assigns the current `numLeaves` as
the leaf index, writes it into the node table, increments the counter, AND
computes/stores the leaf's summary statistics, at minimum the count of
patches.  The first three parts hold, but the statistics store is an
unimplemented `TODO` (CRTree.cpp:229-230): the leaf array is left exactly
as allocated and the working-set count 2 is recorded nowhere — every leaf
record still carries count 0. -/
theorem claimC9_counterexample :
    makeLeaf st9 data2 0 =
      { st9 with log := [WriteEv.leafW 0 0 2], numLeaves := 1 } ∧
    (makeLeaf st9 data2 0).leafArr = st9.leafArr ∧
    List.all (makeLeaf st9 data2 0).leafArr
      (fun l => decide (l.count = 0)) = true ∧
    data2.length = 2 := by
  exact ⟨by decide, by decide, by decide, by decide⟩

/-- Claim C10: split search reads `data[0]` unconditionally, so every call
needs a non-empty working set; `growTree` on an empty training set hits
that out-of-bounds read exactly when the depth rule does not divert the
root straight to a leaf.  In the source the depth rule diverts the root
precisely when `0 < maxDepth`: for every stream and configuration,
`optimizeTest` on an empty set faults (`none`), `growTree` on an empty set
with `maxDepth = 0` faults, and with `maxDepth ≥ 1` it completes (root
diverted to a leaf before split search). -/
theorem claimC10_empty_workingset :
    ∀ (s : RngStream) (nIt iter pos minS maxD fuel : Nat),
      optimizeTest s nIt [] iter pos = none ∧
      growTree s nIt minS 0 (fuel + 1) [] = none ∧
      (growTree s nIt minS (maxD + 1) (fuel + 1) []).isSome = true := by
  intro s nIt iter pos minS maxD fuel
  refine ⟨rfl, rfl, ?_⟩
  simp [growTree, grow, Nat.succ_pos, makeLeaf]

end CRTree
